import Mathlib

/-!
Verification development for the `simplepwa` CLI (src/bin/index.js).

The repository holds two variants of the same command-line tool separated by a
document marker: the first (lines 1-802) includes built-in image asset
generation via `sharp`; the second (lines 803-1436) omits it.  This file
shallowly embeds the data model and the deterministic core of both variants:
the size catalog (`iconSizes`), the asset generator (`generateAssets`), the
manifest synthesizer (`manifestContent`), the build-config patcher and the
setup-report templates, and proves functional properties about them.
-/

namespace SimplePWA

/-- The `size` field of one catalog entry: either a single number (square)
or an explicit `\x7b width, height \x7d` record, as in `iconSizes` of
src/bin/index.js. -/
inductive IconSize where
  | square (n : Nat)
  | rect (width height : Nat)
deriving DecidableEq

/-- One entry of the size catalog: an output file name and its size. -/
structure SizeSpec where
  name : String
  size : IconSize
deriving DecidableEq

/-- The static size catalog `iconSizes` from src/bin/index.js (lines 10-62),
in source order. -/
def iconSizes : List SizeSpec :=
  [ ⟨"favicon-16x16.ico", .square 16⟩,
    ⟨"favicon-32x32.ico", .square 32⟩,
    ⟨"favicon-32x32.png", .square 32⟩,
    ⟨"favicon-16x16.png", .square 16⟩,
    ⟨"icon-48x48.png", .square 48⟩,
    ⟨"icon-72x72.png", .square 72⟩,
    ⟨"icon-96x96.png", .square 96⟩,
    ⟨"icon-128x128.png", .square 128⟩,
    ⟨"icon-144x144.png", .square 144⟩,
    ⟨"icon-152x152.png", .square 152⟩,
    ⟨"icon-192x192.png", .square 192⟩,
    ⟨"icon-384x384.png", .square 384⟩,
    ⟨"icon-512x512.png", .square 512⟩,
    ⟨"apple-touch-icon-57x57.png", .square 57⟩,
    ⟨"apple-touch-icon-60x60.png", .square 60⟩,
    ⟨"apple-touch-icon-72x72.png", .square 72⟩,
    ⟨"apple-touch-icon-76x76.png", .square 76⟩,
    ⟨"apple-touch-icon-114x114.png", .square 114⟩,
    ⟨"apple-touch-icon-120x120.png", .square 120⟩,
    ⟨"apple-touch-icon-144x144.png", .square 144⟩,
    ⟨"apple-touch-icon-152x152.png", .square 152⟩,
    ⟨"apple-touch-icon-180x180.png", .square 180⟩,
    ⟨"maskable_icon-192x192.png", .square 192⟩,
    ⟨"maskable_icon-512x512.png", .square 512⟩,
    ⟨"og-image.png", .rect 1200 630⟩,
    ⟨"twitter-card.png", .rect 1024 512⟩,
    ⟨"iPhone-X-XR-11-Pro-1125x2436.png", .rect 1125 2436⟩,
    ⟨"iPhone-XR-11-828x1792.png", .rect 828 1792⟩,
    ⟨"iPhone-XS-Max-11-Pro-Max-1242x2688.png", .rect 1242 2688⟩,
    ⟨"iPhone-6-6S-7-8-SE-750x1334.png", .rect 750 1334⟩,
    ⟨"iPad-Mini-Air-Pro-9.7-inch-1536x2048.png", .rect 1536 2048⟩,
    ⟨"iPad-Pro-11-inch-1668x2388.png", .rect 1668 2388⟩,
    ⟨"iPad-Pro-12.9-inch-2048x2732.png", .rect 2048 2732⟩ ]

/-- The dimension of a catalog entry as a `"WxH"` string (square entries use
the same value twice). -/
def sizeString (s : SizeSpec) : String :=
  match s.size with
  | .square n => toString n ++ "x" ++ toString n
  | .rect w h => toString w ++ "x" ++ toString h

/-- The seven device splash-screen entries of the catalog (4 iPhone profiles
and 3 iPad profiles). -/
def splashScreenNames : List String :=
  [ "iPhone-X-XR-11-Pro-1125x2436.png",
    "iPhone-XR-11-828x1792.png",
    "iPhone-XS-Max-11-Pro-Max-1242x2688.png",
    "iPhone-6-6S-7-8-SE-750x1334.png",
    "iPad-Mini-Air-Pro-9.7-inch-1536x2048.png",
    "iPad-Pro-11-inch-1668x2388.png",
    "iPad-Pro-12.9-inch-2048x2732.png" ]

/-- One icon entry of the manifest document. -/
structure ManifestIcon where
  src : String
  sizes : String
  type : String
  purpose : String
deriving DecidableEq

/-- The branding answers collected by `getManifestInfo` (name, short name,
description, theme color, background color). -/
structure BrandingAnswers where
  name : String
  shortName : String
  description : String
  themeColor : String
  backgroundColor : String
deriving DecidableEq

/-- The manifest document written to public/manifest.json. -/
structure ManifestContent where
  name : String
  short_name : String
  description : String
  theme_color : String
  background_color : String
  display : String
  orientation : String
  scope : String
  start_url : String
  icons : List ManifestIcon
deriving DecidableEq

/-- Models Node's `path.relative("public", p)`: for `p` of the form
`"public/suffix"` the result is `"suffix"`, for `p = "public"` it is `""`;
for other relative paths without `.`/`..` segments the result climbs one
level. Every assets path the tool constructs starts with `"public/"`. -/
def relativeFromPublic (p : String) : String :=
  if p.take 7 = "public/" then p.drop 7
  else if p = "public" then ""
  else "../" ++ p

/-- The assets-location choice offered by the tool: the two presets, or a
custom suffix appended to `"public/"` (src/bin/index.js lines 247-285). -/
inductive AssetsChoice where
  | publicAssets
  | publicImages
  | custom (suffix : String)
deriving DecidableEq

/-- The `assetsPath` string derived from the operator's choice
(src/bin/index.js lines 269-285). -/
def assetsPathOf : AssetsChoice → String
  | .publicAssets => "public/assets"
  | .publicImages => "public/images"
  | .custom suffix => "public/" ++ suffix

/-- The manifest document built by the generation-capable variant
(src/bin/index.js lines 363-628): branding fields copied verbatim, fixed
display constants, and the literal list of 33 icon entries whose `src`
interpolates `path.relative("public", assetsPath)`. -/
def manifestContent (b : BrandingAnswers) (assetsPath : String) : ManifestContent :=
  let rel := relativeFromPublic assetsPath
  { name := b.name
    short_name := b.shortName
    description := b.description
    theme_color := b.themeColor
    background_color := b.backgroundColor
    display := "standalone"
    orientation := "portrait"
    scope := "/"
    start_url := "/?source=pwa"
    icons :=
      [ ⟨"/" ++ rel ++ "/favicon-16x16.ico", "16x16", "image/png", "any"⟩,
        ⟨"/" ++ rel ++ "/favicon-32x32.ico", "32x32", "image/png", "any"⟩,
        ⟨"/" ++ rel ++ "/favicon-32x32.png", "32x32", "image/png", "any"⟩,
        ⟨"/" ++ rel ++ "/favicon-16x16.png", "16x16", "image/png", "any"⟩,
        ⟨"/" ++ rel ++ "/icon-48x48.png", "48x48", "image/png", "any"⟩,
        ⟨"/" ++ rel ++ "/icon-72x72.png", "72x72", "image/png", "any"⟩,
        ⟨"/" ++ rel ++ "/icon-96x96.png", "96x96", "image/png", "any"⟩,
        ⟨"/" ++ rel ++ "/icon-128x128.png", "128x128", "image/png", "any"⟩,
        ⟨"/" ++ rel ++ "/icon-144x144.png", "144x144", "image/png", "any"⟩,
        ⟨"/" ++ rel ++ "/icon-152x152.png", "152x152", "image/png", "any"⟩,
        ⟨"/" ++ rel ++ "/icon-192x192.png", "192x192", "image/png", "any"⟩,
        ⟨"/" ++ rel ++ "/icon-384x384.png", "384x384", "image/png", "any"⟩,
        ⟨"/" ++ rel ++ "/icon-512x512.png", "512x512", "image/png", "any"⟩,
        ⟨"/" ++ rel ++ "/apple-touch-icon-57x57.png", "57x57", "image/png", "any"⟩,
        ⟨"/" ++ rel ++ "/apple-touch-icon-60x60.png", "60x60", "image/png", "any"⟩,
        ⟨"/" ++ rel ++ "/apple-touch-icon-72x72.png", "72x72", "image/png", "any"⟩,
        ⟨"/" ++ rel ++ "/apple-touch-icon-76x76.png", "76x76", "image/png", "any"⟩,
        ⟨"/" ++ rel ++ "/apple-touch-icon-114x114.png", "114x114", "image/png", "any"⟩,
        ⟨"/" ++ rel ++ "/apple-touch-icon-120x120.png", "120x120", "image/png", "any"⟩,
        ⟨"/" ++ rel ++ "/apple-touch-icon-144x144.png", "144x144", "image/png", "any"⟩,
        ⟨"/" ++ rel ++ "/apple-touch-icon-152x152.png", "152x152", "image/png", "any"⟩,
        ⟨"/" ++ rel ++ "/apple-touch-icon-180x180.png", "180x180", "image/png", "any"⟩,
        ⟨"/" ++ rel ++ "/maskable_icon-192x192.png", "192x192", "image/png", "any maskable"⟩,
        ⟨"/" ++ rel ++ "/maskable_icon-512x512.png", "512x512", "image/png", "any maskable"⟩,
        ⟨"/" ++ rel ++ "/og-image.png", "1200x630", "image/png", "any"⟩,
        ⟨"/" ++ rel ++ "/twitter-card.png", "1200x600", "image/png", "any"⟩,
        ⟨"/" ++ rel ++ "/iPhone-X-XR-11-Pro-1125x2436.png", "1125x2436", "image/png", "any"⟩,
        ⟨"/" ++ rel ++ "/iPhone-XR-11-828x1792.png", "828x1792", "image/png", "any"⟩,
        ⟨"/" ++ rel ++ "/iPhone-XS-Max-11-Pro-Max-1242x2688.png", "1242x2688", "image/png", "any"⟩,
        ⟨"/" ++ rel ++ "/iPhone-6-6S-7-8-SE-750x1334.png", "750x1334", "image/png", "any"⟩,
        ⟨"/" ++ rel ++ "/iPad-Mini-Air-Pro-9.7-inch-1536x2048.png", "1536x2048", "image/png", "any"⟩,
        ⟨"/" ++ rel ++ "/iPad-Pro-11-inch-1668x2388.png", "1668x2388", "image/png", "any"⟩,
        ⟨"/" ++ rel ++ "/iPad-Pro-12.9-inch-2048x2732.png", "2048x2732", "image/png", "any"⟩ ] }

/-- A concrete branding record, taken from the spec's scenario in §8. -/
def exBranding : BrandingAnswers :=
  ⟨"Acme", "Acme", "d", "#112233", "#ffffff"⟩

/-! ## Image Asset Generator (src/bin/index.js lines 64-110) -/

/-- The intrinsic pixel dimensions reported by `sharp(logoPath).metadata()`. -/
structure ImageMeta where
  width : Nat
  height : Nat
deriving DecidableEq

/-- The effect oracle for one `generateAssets` run: the outcome of reading the
source image metadata, and the outcome of each per-entry resize-and-write
(`sharp(...).resize(...).toFile(...)`), which either succeeds or throws with a
message. -/
structure GenEnv where
  readMeta : Except String ImageMeta
  writeEntry : SizeSpec → Except String Unit

/-- Models `path.join(outputPath, icon.name)` for directory paths without a
trailing separator. -/
def pathJoin (dir fileName : String) : String := dir ++ "/" ++ fileName

/-- The `for (const icon of iconSizes)` loop body of `generateAssets`
(src/bin/index.js lines 81-103): entries are processed sequentially in catalog
order; a successful entry appends its output file to the written list; a
failing entry stops the loop with the files written so far left in place (the
thrown error is caught by the surrounding `catch`, which returns `false`). -/
def processEntries (env : GenEnv) (outputPath : String) :
    List SizeSpec → List String → Bool × List String
  | [], written => (true, written)
  | icon :: rest, written =>
    match env.writeEntry icon with
    | .ok _ => processEntries env outputPath rest (written ++ [pathJoin outputPath icon.name])
    | .error _ => (false, written)

/-- `generateAssets(logoPath, outputPath)` (src/bin/index.js lines 64-110):
creates the output directory, reads the source image metadata, rejects images
below 512x512, then processes every catalog entry in order. Every failure is
caught by the single `try/catch` and surfaces as the returned flag `false`;
the second component lists the output files written, in order. `logoPath` is
the path the metadata of which `env.readMeta` reports. -/
def generateAssets (env : GenEnv) (logoPath outputPath : String) : Bool × List String :=
  match env.readMeta with
  | .error _ => (false, [])
  | .ok m =>
    if m.width < 512 || m.height < 512 then (false, [])
    else processEntries env outputPath iconSizes []

/-! ## Build-Config Patcher (src/bin/index.js lines 647-662) -/

/-- Which of the three recognized Next.js config files exist
(`fs.existsSync` results, src/bin/index.js lines 648-650). The `hasJsConfig`
flag is computed by the source but never read. -/
structure ConfigFiles where
  hasJsConfig : Bool
  hasTsConfig : Bool
  hasMjsConfig : Bool
deriving DecidableEq

/-- The fixed PWA configuration block written to the chosen Next.js config file (src/bin/index.js lines 637-645; byte-identical in the second variant, lines 1283-1291). -/
def pwaConfigContent : String :=
  "const withPWA = require(\x27next-pwa\x27)(\x7b\n        dest: \x27public\x27,\n        register: true,\n        skipWaiting: true,\n      \x7d)\n      \n      module.exports = withPWA(\x7b\n        reactStrictMode: true,\n      \x7d)"

/-- The config-patching step (src/bin/index.js lines 653-662): returns the
reported `updatedConfigFile` name and the list of (file, contents) writes
performed, checking `next.config.ts` first, then `next.config.mjs`, else
writing the default `next.config.js`. -/
def updateNextConfig (files : ConfigFiles) : String × List (String × String) :=
  if files.hasTsConfig then
    ("next.config.ts", [("next.config.ts", pwaConfigContent)])
  else if files.hasMjsConfig then
    ("next.config.mjs", [("next.config.mjs", pwaConfigContent)])
  else
    ("next.config.js", [("next.config.js", pwaConfigContent)])

/-! ## The second variant (src/bin/index.js lines 803-1436), which has no
built-in image generation. Its manifest, config-patching code and config block
are transcribed separately so the two variants can be compared. -/

/-- The manifest document built by the variant without built-in generation
(src/bin/index.js lines 1009-1274). -/
def manifestContentNoGen (b : BrandingAnswers) (assetsPath : String) : ManifestContent :=
  let rel := relativeFromPublic assetsPath
  { name := b.name
    short_name := b.shortName
    description := b.description
    theme_color := b.themeColor
    background_color := b.backgroundColor
    display := "standalone"
    orientation := "portrait"
    scope := "/"
    start_url := "/?source=pwa"
    icons :=
      [ ⟨"/" ++ rel ++ "/favicon-16x16.ico", "16x16", "image/png", "any"⟩,
        ⟨"/" ++ rel ++ "/favicon-32x32.ico", "32x32", "image/png", "any"⟩,
        ⟨"/" ++ rel ++ "/favicon-32x32.png", "32x32", "image/png", "any"⟩,
        ⟨"/" ++ rel ++ "/favicon-16x16.png", "16x16", "image/png", "any"⟩,
        ⟨"/" ++ rel ++ "/icon-48x48.png", "48x48", "image/png", "any"⟩,
        ⟨"/" ++ rel ++ "/icon-72x72.png", "72x72", "image/png", "any"⟩,
        ⟨"/" ++ rel ++ "/icon-96x96.png", "96x96", "image/png", "any"⟩,
        ⟨"/" ++ rel ++ "/icon-128x128.png", "128x128", "image/png", "any"⟩,
        ⟨"/" ++ rel ++ "/icon-144x144.png", "144x144", "image/png", "any"⟩,
        ⟨"/" ++ rel ++ "/icon-152x152.png", "152x152", "image/png", "any"⟩,
        ⟨"/" ++ rel ++ "/icon-192x192.png", "192x192", "image/png", "any"⟩,
        ⟨"/" ++ rel ++ "/icon-384x384.png", "384x384", "image/png", "any"⟩,
        ⟨"/" ++ rel ++ "/icon-512x512.png", "512x512", "image/png", "any"⟩,
        ⟨"/" ++ rel ++ "/apple-touch-icon-57x57.png", "57x57", "image/png", "any"⟩,
        ⟨"/" ++ rel ++ "/apple-touch-icon-60x60.png", "60x60", "image/png", "any"⟩,
        ⟨"/" ++ rel ++ "/apple-touch-icon-72x72.png", "72x72", "image/png", "any"⟩,
        ⟨"/" ++ rel ++ "/apple-touch-icon-76x76.png", "76x76", "image/png", "any"⟩,
        ⟨"/" ++ rel ++ "/apple-touch-icon-114x114.png", "114x114", "image/png", "any"⟩,
        ⟨"/" ++ rel ++ "/apple-touch-icon-120x120.png", "120x120", "image/png", "any"⟩,
        ⟨"/" ++ rel ++ "/apple-touch-icon-144x144.png", "144x144", "image/png", "any"⟩,
        ⟨"/" ++ rel ++ "/apple-touch-icon-152x152.png", "152x152", "image/png", "any"⟩,
        ⟨"/" ++ rel ++ "/apple-touch-icon-180x180.png", "180x180", "image/png", "any"⟩,
        ⟨"/" ++ rel ++ "/maskable_icon-192x192.png", "192x192", "image/png", "any maskable"⟩,
        ⟨"/" ++ rel ++ "/maskable_icon-512x512.png", "512x512", "image/png", "any maskable"⟩,
        ⟨"/" ++ rel ++ "/og-image.png", "1200x630", "image/png", "any"⟩,
        ⟨"/" ++ rel ++ "/twitter-card.png", "1200x600", "image/png", "any"⟩,
        ⟨"/" ++ rel ++ "/iPhone-X-XR-11-Pro-1125x2436.png", "1125x2436", "image/png", "any"⟩,
        ⟨"/" ++ rel ++ "/iPhone-XR-11-828x1792.png", "828x1792", "image/png", "any"⟩,
        ⟨"/" ++ rel ++ "/iPhone-XS-Max-11-Pro-Max-1242x2688.png", "1242x2688", "image/png", "any"⟩,
        ⟨"/" ++ rel ++ "/iPhone-6-6S-7-8-SE-750x1334.png", "750x1334", "image/png", "any"⟩,
        ⟨"/" ++ rel ++ "/iPad-Mini-Air-Pro-9.7-inch-1536x2048.png", "1536x2048", "image/png", "any"⟩,
        ⟨"/" ++ rel ++ "/iPad-Pro-11-inch-1668x2388.png", "1668x2388", "image/png", "any"⟩,
        ⟨"/" ++ rel ++ "/iPad-Pro-12.9-inch-2048x2732.png", "2048x2732", "image/png", "any"⟩ ] }

/-- The fixed PWA configuration block of the second variant
(src/bin/index.js lines 1283-1291). -/
def pwaConfigContentNoGen : String :=
  "const withPWA = require(\x27next-pwa\x27)(\x7b\n        dest: \x27public\x27,\n        register: true,\n        skipWaiting: true,\n      \x7d)\n      \n      module.exports = withPWA(\x7b\n        reactStrictMode: true,\n      \x7d)"

/-- The config-patching step of the second variant
(src/bin/index.js lines 1294-1308). -/
def updateNextConfigNoGen (files : ConfigFiles) : String × List (String × String) :=
  if files.hasTsConfig then
    ("next.config.ts", [("next.config.ts", pwaConfigContentNoGen)])
  else if files.hasMjsConfig then
    ("next.config.mjs", [("next.config.mjs", pwaConfigContentNoGen)])
  else
    ("next.config.js", [("next.config.js", pwaConfigContentNoGen)])

/-! ## Setup-report templates -/

/-- The PWA_SETUP.md template of the generation-capable variant (src/bin/index.js lines 684-777), as a function of its interpolated values. -/
def readmeContent (assetsPath updatedConfigFile packageManager metadataPath themeColor shortName : String) : String :=
  let rel := relativeFromPublic assetsPath
  let pmRun := if packageManager = "npm" then "npm run" else packageManager
  "# PWA Setup Instructions\n\nYour Next.js app has been configured as a Progressive Web App (PWA). Here\x27s what you need to know:\n\n1. Assets\n   All required PWA assets have been generated and placed in the " ++
    assetsPath ++
    " directory, including:\n   - Favicons (16x16, 32x32)\n   - Standard icons (48x48 to 512x512)\n   - Apple Touch Icons (57x57 to 180x180)\n   - Maskable icons (192x192, 512x512)\n   - Social media images (og-image, twitter-card)\n   - Device-specific splash screens (iPhone and iPad variants)\n\n   To regenerate assets, you can run this CLI tool again with a different logo.\n\n2. Configuration Files\n   - manifest.json has been created in the public directory\n   - " ++
    updatedConfigFile ++
    " has been updated with PWA configuration\n\n3. Testing\n   - PWA is disabled in development by default\n   - To test PWA features, build and start the production server:\n     ```bash\n     " ++
    pmRun ++
    " build\n     " ++
    pmRun ++
    " start\n     ```\n\n4. Metadata Setup\n   Add the following metadata to your " ++
    metadataPath ++
    " file:\n\n   For App Router (inside the metadata object):\n   ```tsx\n   import \x7b Metadata \x7d from \x27next\x27\n   \n   export const metadata: Metadata = \x7b\n     manifest: \x27/manifest.json\x27,\n     themeColor: \x27" ++
    themeColor ++
    "\x27,\n     viewport: \x7b\n       width: \x27device-width\x27,\n       initialScale: 1\n     \x7d,\n     icons: \x7b\n       apple: \x27/" ++
    rel ++
    "/apple-touch-icon-180x180.png\x27\n     \x7d,\n     appleWebApp: \x7b\n       capable: true,\n       statusBarStyle: \x27default\x27,\n       title: \x27" ++
    shortName ++
    "\x27,\n     \x7d,\n     formatDetection: \x7b\n       telephone: false,\n     \x7d,\n     openGraph: \x7b\n       images: [\x27/" ++
    rel ++
    "/og-image.png\x27],\n     \x7d,\n     twitter: \x7b\n       card: \x27summary_large_image\x27,\n       images: [\x27/" ++
    rel ++
    "/twitter-card.png\x27],\n     \x7d,\n   \x7d\n   ```\n\n   Or if you prefer to use meta tags directly in your layout:\n   ```tsx\n   <head>\n     <meta name=\"viewport\" content=\"width=device-width, initial-scale=1\" />\n     <meta name=\"theme-color\" content=\"" ++
    themeColor ++
    "\" />\n     <link rel=\"manifest\" href=\"/manifest.json\" />\n     <link rel=\"apple-touch-icon\" href=\"/" ++
    rel ++
    "/apple-touch-icon-180x180.png\" />\n     <meta name=\"apple-mobile-web-app-capable\" content=\"yes\" />\n     <meta name=\"apple-mobile-web-app-status-bar-style\" content=\"default\" />\n     <meta name=\"apple-mobile-web-app-title\" content=\"" ++
    shortName ++
    "\" />\n     <meta name=\"format-detection\" content=\"telephone=no\" />\n     <meta property=\"og:image\" content=\"/" ++
    rel ++
    "/og-image.png\" />\n     <meta name=\"twitter:card\" content=\"summary_large_image\" />\n     <meta name=\"twitter:image\" content=\"/" ++
    rel ++
    "/twitter-card.png\" />\n   </head>\n   ```\n\n"

/-- The PWA_SETUP.md template of the variant without built-in generation (src/bin/index.js lines 1320-1418). -/
def readmeContentNoGen (assetsPath updatedConfigFile packageManager metadataPath themeColor shortName : String) : String :=
  let rel := relativeFromPublic assetsPath
  let pmRun := if packageManager = "npm" then "npm run" else packageManager
  "# PWA Setup Instructions\n\nYour Next.js app has been configured as a Progressive Web App (PWA). Here\x27s what you need to know:\n\n1. Required Assets\n   You\x27ll need various icons and splash screens for your PWA. You can generate all required assets using our online PWA Asset Generator:\n   [PWA Asset Generator](https://simplepwa.xyz/)\n\n   After generating the assets, place them in your " ++
    assetsPath ++
    " directory. The required assets include:\n   - Favicons (16x16, 32x32)\n   - Standard icons (48x48 to 512x512)\n   - Apple Touch Icons (57x57 to 180x180)\n   - Maskable icons (192x192, 512x512)\n   - Social media images (og-image, twitter-card)\n   - Device-specific splash screens (iPhone and iPad variants)\n\n2. Configuration Files\n   - manifest.json has been created in the public directory\n   - " ++
    updatedConfigFile ++
    " has been updated with PWA configuration\n\n3. Additional Setup\n   - PWA is disabled in development by default\n   - To test PWA features, build and start the production server:\n     ```bash\n     " ++
    pmRun ++
    " build\n     " ++
    pmRun ++
    " start\n     ```\n\n4. Metadata Setup\n   Add the following metadata to your " ++
    metadataPath ++
    " file:\n\n   For App Router (inside the metadata object):\n   ```tsx\n   import \x7b Metadata \x7d from \x27next\x27\n   \n   export const metadata: Metadata = \x7b\n     manifest: \x27/manifest.json\x27,\n     themeColor: \x27" ++
    themeColor ++
    "\x27,\n     viewport: \x7b\n       width: \x27device-width\x27,\n       initialScale: 1\n     \x7d,\n     icons: \x7b\n       apple: \x27/" ++
    rel ++
    "/apple-touch-icon-180x180.png\x27\n     \x7d,\n     appleWebApp: \x7b\n       capable: true,\n       statusBarStyle: \x27default\x27,\n       title: \x27" ++
    shortName ++
    "\x27,\n     \x7d,\n     formatDetection: \x7b\n       telephone: false,\n     \x7d,\n     openGraph: \x7b\n       images: [\x27/" ++
    rel ++
    "/og-image.png\x27],\n     \x7d,\n     twitter: \x7b\n       card: \x27summary_large_image\x27,\n       images: [\x27/" ++
    rel ++
    "/twitter-card.png\x27],\n     \x7d,\n   \x7d\n   ```\n\n   Or if you prefer to use meta tags directly in your layout:\n   ```tsx\n   <head>\n     <meta name=\"viewport\" content=\"width=device-width, initial-scale=1\" />\n     <meta name=\"theme-color\" content=\"" ++
    themeColor ++
    "\" />\n     <link rel=\"manifest\" href=\"/manifest.json\" />\n     <link rel=\"apple-touch-icon\" href=\"/" ++
    rel ++
    "/apple-touch-icon-180x180.png\" />\n     <meta name=\"apple-mobile-web-app-capable\" content=\"yes\" />\n     <meta name=\"apple-mobile-web-app-status-bar-style\" content=\"default\" />\n     <meta name=\"apple-mobile-web-app-title\" content=\"" ++
    shortName ++
    "\" />\n     <meta name=\"format-detection\" content=\"telephone=no\" />\n     <meta property=\"og:image\" content=\"/" ++
    rel ++
    "/og-image.png\" />\n     <meta name=\"twitter:card\" content=\"summary_large_image\" />\n     <meta name=\"twitter:image\" content=\"/" ++
    rel ++
    "/twitter-card.png\" />\n   </head>\n   ```\n\nNote: For App Router (app directory), it\x27s recommended to use the metadata object approach as it\x27s the Next.js 13+ preferred method.\n\nFor more information about PWA features and configuration, visit:\nhttps://github.com/shadowwalker/next-pwa\n"

/-! Equality of per-entry write outcomes is decidable, so concrete runs of the
generator can be evaluated inside proofs. -/
deriving instance DecidableEq for Except

/-! ## Concrete effect environments used to exercise the theorems -/

/-- An environment where the source image is exactly 512x512 and every
per-entry write succeeds. -/
def envAllOk : GenEnv :=
  ⟨.ok ⟨512, 512⟩, fun _ => .ok ()⟩

/-- An environment where the source image is 511x511. -/
def envTooSmall : GenEnv :=
  ⟨.ok ⟨511, 511⟩, fun _ => .ok ()⟩

/-- An environment where the write of `favicon-32x32.png` (catalog index 2)
fails and every other write succeeds. -/
def envFailThird : GenEnv :=
  ⟨.ok ⟨1024, 1024⟩,
   fun s => if s.name = "favicon-32x32.png" then .error "write failed" else .ok ()⟩

end SimplePWA

namespace SimplePWA

/-! ## Helper lemmas about the generation loop -/

/-- If every entry of `l` writes successfully, the loop succeeds and appends
one output file per entry, in order. -/
theorem processEntries_eq_of_all_ok (env : GenEnv) (outputPath : String) :
    ∀ (l : List SizeSpec) (acc : List String),
      (∀ s ∈ l, env.writeEntry s = .ok ()) →
      processEntries env outputPath l acc =
        (true, acc ++ l.map (fun s => pathJoin outputPath s.name)) := by
  intro l
  induction l with
  | nil => intro acc _; simp [processEntries]
  | cons icon rest ih =>
    intro acc h
    have hhead : env.writeEntry icon = .ok () := h icon (by simp)
    simp only [processEntries, hhead]
    rw [ih (acc ++ [pathJoin outputPath icon.name]) (fun s hs => h s (by simp [hs]))]
    simp

/-- The loop reports success exactly when every entry writes successfully. -/
theorem processEntries_fst_true_iff (env : GenEnv) (outputPath : String) :
    ∀ (l : List SizeSpec) (acc : List String),
      (processEntries env outputPath l acc).1 = true ↔
        ∀ s ∈ l, env.writeEntry s = .ok () := by
  intro l
  induction l with
  | nil => intro acc; simp [processEntries]
  | cons icon rest ih =>
    intro acc
    cases h : env.writeEntry icon with
    | ok u =>
      cases u
      simp only [processEntries, h]
      rw [ih]
      constructor
      · intro hall s hs
        rcases List.mem_cons.mp hs with rfl | hs'
        · exact h
        · exact hall s hs'
      · intro hall s hs
        exact hall s (List.mem_cons_of_mem _ hs)
    | error msg =>
      simp only [processEntries, h]
      constructor
      · intro hfalse; simp at hfalse
      · intro hall
        have := hall icon (by simp)
        rw [h] at this
        cases this

/-- If the first `k` entries write successfully and entry `k` fails, the loop
stops at entry `k`, keeping exactly the files of the first `k` entries. -/
theorem processEntries_stops_at_first_failure (env : GenEnv) (outputPath : String) :
    ∀ (l : List SizeSpec) (acc : List String) (k : Nat) (hk : k < l.length),
      (∀ i (hi : i < k), env.writeEntry (l.get ⟨i, lt_trans hi hk⟩) = .ok ()) →
      env.writeEntry (l.get ⟨k, hk⟩) ≠ .ok () →
      processEntries env outputPath l acc =
        (false, acc ++ (l.take k).map (fun s => pathJoin outputPath s.name)) := by
  intro l
  induction l with
  | nil => intro acc k hk; simp at hk
  | cons icon rest ih =>
    intro acc k hk hok hfail
    cases k with
    | zero =>
      cases h : env.writeEntry icon with
      | ok u =>
        cases u
        exact absurd h hfail
      | error msg =>
        simp [processEntries, h]
    | succ k' =>
      have hhead : env.writeEntry icon = .ok () := hok 0 (Nat.succ_pos k')
      simp only [processEntries, hhead]
      have hk' : k' < rest.length := Nat.lt_of_succ_lt_succ hk
      rw [ih (acc ++ [pathJoin outputPath icon.name]) k' hk'
        (fun i hi => hok (i + 1) (Nat.succ_lt_succ hi)) hfail]
      simp

/-- `generateAssets` reports success exactly when the metadata read succeeds,
both dimensions are at least 512, and every per-entry write succeeds. -/
theorem generateAssets_fst_true_iff (env : GenEnv) (logoPath outputPath : String) :
    (generateAssets env logoPath outputPath).1 = true ↔
      (∃ m, env.readMeta = .ok m ∧ 512 ≤ m.width ∧ 512 ≤ m.height) ∧
        ∀ s ∈ iconSizes, env.writeEntry s = .ok () := by
  unfold generateAssets
  cases hm : env.readMeta with
  | error msg =>
    constructor
    · intro h; simp at h
    · rintro ⟨⟨m, hm', _⟩, _⟩; cases hm'
  | ok m =>
    by_cases hb : m.width < 512 ∨ m.height < 512
    · have hc : (decide (m.width < 512) || decide (m.height < 512)) = true := by
        rcases hb with h | h <;> simp [h]
      simp only [hc]
      constructor
      · intro h; simp at h
      · rintro ⟨⟨m', hm', hw', hh'⟩, _⟩
        injection hm' with e
        subst e
        rcases hb with h | h
        · exact absurd hw' (Nat.not_le.mpr h)
        · exact absurd hh' (Nat.not_le.mpr h)
    · push_neg at hb
      obtain ⟨hw, hh⟩ := hb
      have hc : (decide (m.width < 512) || decide (m.height < 512)) = false := by
        simp [Nat.not_lt.mpr hw, Nat.not_lt.mpr hh]
      simp only [hc]
      rw [if_neg Bool.false_ne_true]
      rw [processEntries_fst_true_iff]
      constructor
      · intro hall
        exact ⟨⟨m, rfl, hw, hh⟩, hall⟩
      · rintro ⟨_, hall⟩
        exact hall

/-! ## Claim theorems -/

/-- Claim C1, as stated, is false: the produced manifest's icon list is not a
curated subset of the catalog — it also enumerates the device splash screens.
All 7 splash-screen catalog entries are referenced by icon entries; in
particular the iPhone-X profile appears as a manifest icon. -/
theorem C1_counterexample :
    ((manifestContent exBranding "public/assets").icons.filter
        (fun e => splashScreenNames.any (fun n => e.src == "/assets/" ++ n))).length = 7 ∧
      (⟨"/assets/iPhone-X-XR-11-Pro-1125x2436.png", "1125x2436", "image/png", "any"⟩ :
          ManifestIcon) ∈ (manifestContent exBranding "public/assets").icons ∧
      "iPhone-X-XR-11-Pro-1125x2436.png" ∈ splashScreenNames := by
  decide

/-- Claim C1 (amended): for every branding record and assets path, the icon
`src` list of the produced manifest enumerates the ENTIRE size catalog in
catalog order — the device splash-screen entries included — each as
`/` + path relative to public + `/` + outputFileName. -/
theorem C1_icons_enumerate_entire_catalog (b : BrandingAnswers) (assetsPath : String) :
    (manifestContent b assetsPath).icons.map (fun e => e.src) =
      iconSizes.map (fun s => "/" ++ relativeFromPublic assetsPath ++ ("/" ++ s.name)) := rfl

/-- Claim C2: the twitter-card entry violates the size-string invariant. The
26th icon entry (index 25) is twitter-card.png with declared sizes
`"1200x600"`, while the catalog dimension of twitter-card.png is 1024x512;
pairing the icon list with the catalog shows this is the only entry whose
sizes string differs from the catalog dimension. -/
theorem C2_twitter_card_sizes_mismatch :
    ((manifestContent exBranding "public/assets").icons.get? 25).map
        (fun e => (e.src, e.sizes)) = some ("/assets/twitter-card.png", "1200x600") ∧
      (iconSizes.get? 25).map (fun s => (s.name, sizeString s)) =
        some ("twitter-card.png", "1024x512") ∧
      ((manifestContent exBranding "public/assets").icons.zip iconSizes).filter
          (fun p => !(p.1.sizes == sizeString p.2)) =
        [(⟨"/assets/twitter-card.png", "1200x600", "image/png", "any"⟩,
          ⟨"twitter-card.png", .rect 1024 512⟩)] := by
  decide

/-- Claim C3: when generation succeeds, the generator writes exactly one file
per catalog entry into the assets directory (in catalog order), and the k-th
manifest icon `src` is `/` + (assets path relative to public) + `/` + the
k-th catalog entry's outputFileName — a serving-root-relative path, never the
filesystem path. -/
theorem C3_referential_integrity (env : GenEnv) (b : BrandingAnswers)
    (logoPath assetsPath : String)
    (hsuccess : (generateAssets env logoPath assetsPath).1 = true) :
    (generateAssets env logoPath assetsPath).2 =
        iconSizes.map (fun s => pathJoin assetsPath s.name) ∧
      (manifestContent b assetsPath).icons.map (fun e => e.src) =
        iconSizes.map (fun s => "/" ++ relativeFromPublic assetsPath ++ ("/" ++ s.name)) := by
  refine ⟨?_, rfl⟩
  obtain ⟨⟨m, hm, hw, hh⟩, hall⟩ :=
    (generateAssets_fst_true_iff env logoPath assetsPath).mp hsuccess
  unfold generateAssets
  rw [hm]
  have hc : (decide (m.width < 512) || decide (m.height < 512)) = false := by
    simp [Nat.not_lt.mpr hw, Nat.not_lt.mpr hh]
  simp only [hc]
  rw [if_neg Bool.false_ne_true]
  rw [processEntries_eq_of_all_ok env assetsPath iconSizes [] hall]
  simp

/-- Claim C3 witness: a successful run with a 512x512 source writing into
public/assets. -/
theorem C3_referential_integrity_witness :
    (generateAssets envAllOk "logo.png" "public/assets").2 =
        iconSizes.map (fun s => pathJoin "public/assets" s.name) ∧
      (manifestContent exBranding "public/assets").icons.map (fun e => e.src) =
        iconSizes.map (fun s =>
          "/" ++ relativeFromPublic "public/assets" ++ ("/" ++ s.name)) :=
  C3_referential_integrity envAllOk exBranding "logo.png" "public/assets" (by decide)

/-- Claim C4: if the source image metadata reports a width or height below
512, `generateAssets` fails with zero files written; if both dimensions are
at least 512, the minimum-resolution gate passes and per-entry processing of
the catalog begins. -/
theorem C4_minimum_resolution_gate (env : GenEnv) (logoPath outputPath : String)
    (m : ImageMeta) (hm : env.readMeta = .ok m) :
    (m.width < 512 ∨ m.height < 512 →
        generateAssets env logoPath outputPath = (false, [])) ∧
      (512 ≤ m.width → 512 ≤ m.height →
        generateAssets env logoPath outputPath =
          processEntries env outputPath iconSizes []) := by
  unfold generateAssets
  rw [hm]
  constructor
  · intro hsmall
    have hc : (decide (m.width < 512) || decide (m.height < 512)) = true := by
      rcases hsmall with h | h <;> simp [h]
    simp [hc]
  · intro hw hh
    have hc : (decide (m.width < 512) || decide (m.height < 512)) = false := by
      simp [Nat.not_lt.mpr hw, Nat.not_lt.mpr hh]
    simp [hc]

/-- Claim C4 witness: a 511x511 source fails with no files written; a 512x512
source passes the gate and enters entry processing (which here succeeds). -/
theorem C4_minimum_resolution_gate_witness :
    generateAssets envTooSmall "logo.png" "public/assets" = (false, []) ∧
      generateAssets envAllOk "logo.png" "public/assets" =
        processEntries envAllOk "public/assets" iconSizes [] :=
  ⟨(C4_minimum_resolution_gate envTooSmall "logo.png" "public/assets" ⟨511, 511⟩ rfl).1
      (Or.inl (by decide)),
    (C4_minimum_resolution_gate envAllOk "logo.png" "public/assets" ⟨512, 512⟩ rfl).2
      (by decide) (by decide)⟩

/-- Claim C5: entries are processed sequentially in catalog order with no
rollback. If the first `k` writes succeed and the write of entry `k` fails,
the run reports failure and the written files are exactly those of the first
`k` entries: earlier outputs remain, no later entry is processed. -/
theorem C5_sequential_no_rollback (env : GenEnv) (logoPath outputPath : String)
    (m : ImageMeta) (hm : env.readMeta = .ok m)
    (hw : 512 ≤ m.width) (hh : 512 ≤ m.height)
    (k : Nat) (hk : k < iconSizes.length)
    (hok : ∀ i (hi : i < k), env.writeEntry (iconSizes.get ⟨i, lt_trans hi hk⟩) = .ok ())
    (hfail : env.writeEntry (iconSizes.get ⟨k, hk⟩) ≠ .ok ()) :
    generateAssets env logoPath outputPath =
      (false, (iconSizes.take k).map (fun s => pathJoin outputPath s.name)) := by
  unfold generateAssets
  rw [hm]
  have hc : (decide (m.width < 512) || decide (m.height < 512)) = false := by
    simp [Nat.not_lt.mpr hw, Nat.not_lt.mpr hh]
  simp only [hc]
  rw [processEntries_stops_at_first_failure env outputPath iconSizes [] k hk hok hfail]
  simp

/-- Claim C5 witness: with the third write (favicon-32x32.png, index 2)
failing, the run fails and exactly the first two files remain. -/
theorem C5_sequential_no_rollback_witness :
    generateAssets envFailThird "logo.png" "public/assets" =
      (false, ["public/assets/favicon-16x16.ico", "public/assets/favicon-32x32.ico"]) :=
  (C5_sequential_no_rollback envFailThird "logo.png" "public/assets" ⟨1024, 1024⟩ rfl
    (by decide) (by decide) 2 (by decide) (by decide) (by decide)).trans (by decide)

/-- Claim C6: pairing each icon entry's `src` with its `purpose`, exactly the
two entries whose catalog outputFileName is maskable-flagged
(maskable_icon-192x192.png and maskable_icon-512x512.png) carry
`"any maskable"`, and every other entry carries `"any"`. -/
theorem C6_maskable_purpose (b : BrandingAnswers) (assetsPath : String) :
    (manifestContent b assetsPath).icons.map (fun e => (e.src, e.purpose)) =
      iconSizes.map (fun s =>
        ("/" ++ relativeFromPublic assetsPath ++ ("/" ++ s.name),
          if s.name = "maskable_icon-192x192.png" ∨ s.name = "maskable_icon-512x512.png"
          then "any maskable" else "any")) := rfl

/-- Claim C7: every icon entry (the `.ico`-named favicon entries included)
has type exactly `"image/png"`, and the top-level manifest fields copy the
branding answers verbatim alongside the four fixed constants. -/
theorem C7_icon_type_and_top_level_fields (b : BrandingAnswers) (assetsPath : String) :
    (manifestContent b assetsPath).icons.map (fun e => (e.src, e.type)) =
        iconSizes.map (fun s =>
          ("/" ++ relativeFromPublic assetsPath ++ ("/" ++ s.name), "image/png")) ∧
      "favicon-16x16.ico" ∈ iconSizes.map (fun s => s.name) ∧
      "favicon-32x32.ico" ∈ iconSizes.map (fun s => s.name) ∧
      (manifestContent b assetsPath).name = b.name ∧
      (manifestContent b assetsPath).short_name = b.shortName ∧
      (manifestContent b assetsPath).description = b.description ∧
      (manifestContent b assetsPath).theme_color = b.themeColor ∧
      (manifestContent b assetsPath).background_color = b.backgroundColor ∧
      (manifestContent b assetsPath).display = "standalone" ∧
      (manifestContent b assetsPath).orientation = "portrait" ∧
      (manifestContent b assetsPath).scope = "/" ∧
      (manifestContent b assetsPath).start_url = "/?source=pwa" :=
  ⟨rfl, by decide, by decide, rfl, rfl, rfl, rfl, rfl, rfl, rfl, rfl, rfl⟩

/-- Claim C8: the config patcher checks the statically-typed variant first,
then the module variant, then falls back to the default: if next.config.ts
exists only it is written; otherwise if next.config.mjs exists only it is
written; otherwise only next.config.js is written. -/
theorem C8_config_precedence (files : ConfigFiles) :
    (files.hasTsConfig = true →
        updateNextConfig files =
          ("next.config.ts", [("next.config.ts", pwaConfigContent)])) ∧
      (files.hasTsConfig = false → files.hasMjsConfig = true →
        updateNextConfig files =
          ("next.config.mjs", [("next.config.mjs", pwaConfigContent)])) ∧
      (files.hasTsConfig = false → files.hasMjsConfig = false →
        updateNextConfig files =
          ("next.config.js", [("next.config.js", pwaConfigContent)])) := by
  obtain ⟨js, ts, mjs⟩ := files
  cases ts <;> cases mjs <;> simp [updateNextConfig]

/-- Claim C8 witness: a project where only next.config.ts exists gets exactly
one write, to next.config.ts — the default js file is not created. -/
theorem C8_config_precedence_witness :
    updateNextConfig ⟨false, true, false⟩ =
      ("next.config.ts", [("next.config.ts", pwaConfigContent)]) :=
  (C8_config_precedence ⟨false, true, false⟩).1 rfl

/-- Claim C9, as stated, is false: with identical answers the two variants
produce different setup-report documents (their PWA_SETUP.md templates differ
from the assets section onward). -/
theorem C9_counterexample :
    readmeContent "public/assets" "next.config.js" "npm" "app/layout.tsx" "#112233" "Acme" ≠
      readmeContentNoGen "public/assets" "next.config.js" "npm" "app/layout.tsx" "#112233" "Acme" := by
  decide

/-- Claim C9 (amended): for identical answers, the two variants produce the
same manifest document and the same build-config choice and content, but NOT
the same setup-report document: the report templates differ (generation
variant: a generated-assets section and a Testing section; non-generation
variant: a web-tool section, an Additional Setup section and a closing
note). -/
theorem C9_variants_agree_except_report :
    (∀ (b : BrandingAnswers) (assetsPath : String),
        manifestContentNoGen b assetsPath = manifestContent b assetsPath) ∧
      (∀ files : ConfigFiles, updateNextConfigNoGen files = updateNextConfig files) ∧
      readmeContent "public/assets" "next.config.js" "npm" "app/layout.tsx" "#112233" "Acme" ≠
        readmeContentNoGen "public/assets" "next.config.js" "npm" "app/layout.tsx" "#112233" "Acme" :=
  ⟨fun _ _ => rfl, fun _ => rfl, by decide⟩

/-- Claim C9 witness: the agreement parts of the amended claim instantiated
at the spec's scenario inputs. -/
theorem C9_variants_agree_witness :
    manifestContentNoGen exBranding "public/assets" =
        manifestContent exBranding "public/assets" ∧
      updateNextConfigNoGen ⟨false, true, false⟩ = updateNextConfig ⟨false, true, false⟩ :=
  ⟨C9_variants_agree_except_report.1 exBranding "public/assets",
    C9_variants_agree_except_report.2.1 ⟨false, true, false⟩⟩

/-- Claim C10: `generateAssets` never propagates an error — it returns a
boolean, `true` exactly when the metadata read succeeded, both source
dimensions are at least 512, and every per-entry resize/write succeeded;
every failure mode yields `false`. -/
theorem C10_generateAssets_reports_failures (env : GenEnv) (logoPath outputPath : String) :
    (generateAssets env logoPath outputPath).1 = true ↔
      (∃ m, env.readMeta = .ok m ∧ 512 ≤ m.width ∧ 512 ≤ m.height) ∧
        ∀ s ∈ iconSizes, env.writeEntry s = .ok () :=
  generateAssets_fst_true_iff env logoPath outputPath

/-- Claim C10 witness: an all-successful environment makes `generateAssets`
return `true`. -/
theorem C10_generateAssets_reports_failures_witness :
    (generateAssets envAllOk "logo.png" "public/assets").1 = true :=
  (C10_generateAssets_reports_failures envAllOk "logo.png" "public/assets").mpr
    ⟨⟨⟨512, 512⟩, rfl, by decide, by decide⟩, fun _ _ => rfl⟩

end SimplePWA
